import Mathlib

/-!
Verification of the CINESONICS quota-and-token broker (`src/server.js`).

The server keeps two pieces of in-memory state:
  * a rate-limiting `store` — a global daily counter, a reset date, and a
    map ip → { count, date };
  * a `coverTokens` map — token → { url, expiresAt }.

We embed the state and the three handlers (`GET /api/status`,
`POST /api/generate`, `GET /api/cover/:token`) together with the periodic
sweep as pure Lean functions.  JavaScript `Map`s are modelled as
association lists (insertion order preserved, keys unique by
construction); `Date.now()` timestamps are `Nat` milliseconds; the current
UTC calendar date (`todayUTC()`) and the client ip are `String`
parameters; the upstream network calls are inputs describing how the
environment answered.
-/

set_option maxRecDepth 4000

namespace Cinesonics

/-- `DAILY_GLOBAL_LIMIT` from server.js line 38. -/
def DAILY_GLOBAL_LIMIT : Nat := 11

/-- `DAILY_USER_LIMIT` from server.js line 39. -/
def DAILY_USER_LIMIT : Nat := 2

/-- A per-user record in `store.users`: `{ count, date }`. -/
structure UserRec where
  count : Nat
  date : String
  deriving DecidableEq, Repr

/-- The rate-limiting `store`: `{ globalCount, resetDate, users }`.
`users` is an association list ip ↦ record, modelling the JS `Map`. -/
structure Store where
  globalCount : Nat
  resetDate : String
  users : List (String × UserRec)
  deriving DecidableEq, Repr

/-- A `coverTokens` entry: `{ url, expiresAt }`. -/
structure TokenEntry where
  url : String
  expiresAt : Nat
  deriving DecidableEq, Repr

/-- The `coverTokens` map, token ↦ entry. -/
def Vault : Type := List (String × TokenEntry)

instance : DecidableEq Vault := by unfold Vault; infer_instance

/-- `Map.get`: first (and, for maps built by `setEntry`, only) binding of a key. -/
def getEntry {α : Type} (m : List (String × α)) (k : String) : Option α :=
  match m with
  | [] => none
  | (k', v) :: rest => if k' = k then some v else getEntry rest k

/-- `Map.set`: replace an existing binding in place, else append. -/
def setEntry {α : Type} (m : List (String × α)) (k : String) (v : α) :
    List (String × α) :=
  match m with
  | [] => [(k, v)]
  | (k', v') :: rest =>
    if k' = k then (k, v) :: rest else (k', v') :: setEntry rest k v

/-- `Map.delete`: remove the binding of a key. -/
def delEntry {α : Type} (m : List (String × α)) (k : String) :
    List (String × α) :=
  m.filter (fun p => p.1 ≠ k)

/-- `resetIfNewDay()` (server.js 55–63): if the stored reset date differs
from today's UTC date, zero the global counter, update the date and clear
the per-user map. -/
def resetIfNewDay (today : String) (s : Store) : Store :=
  if s.resetDate ≠ today then
    { globalCount := 0, resetDate := today, users := [] }
  else s

/-- `userRecord(ip)` (server.js 73–81): fetch the per-user record; if
absent or stale (its date is not today) install a fresh
`{ count := 0, date := today }` record.  Returns the record together with
the updated store. -/
def userRecord (today : String) (ip : String) (s : Store) : UserRec × Store :=
  match getEntry s.users ip with
  | some urec =>
    if urec.date ≠ today then
      let fresh : UserRec := { count := 0, date := today }
      (fresh, { s with users := setEntry s.users ip fresh })
    else (urec, s)
  | none =>
    let fresh : UserRec := { count := 0, date := today }
    (fresh, { s with users := setEntry s.users ip fresh })

/-- The `vibe` field of the JSON request body: either a string or some
other JSON value (`typeof req.body.vibe !== 'string'`). -/
inductive VibeField where
  | str (s : String)
  | nonString
  deriving DecidableEq, Repr

/-- JavaScript `String.prototype.trim`: strip leading and trailing
whitespace. -/
def jsTrim (s : String) : String :=
  String.mk (((s.data.dropWhile Char.isWhitespace).reverse.dropWhile
    Char.isWhitespace).reverse)

/-- Server.js line 169: `typeof req.body.vibe === 'string' ? req.body.vibe.trim() : ''`. -/
def vibeOf : VibeField → String
  | .str s => jsTrim s
  | .nonString => ""

/-- The validation predicate of server.js line 170: `!vibe || vibe.length > 600`. -/
def vibeInvalid (f : VibeField) : Prop :=
  vibeOf f = "" ∨ (vibeOf f).length > 600

instance (f : VibeField) : Decidable (vibeInvalid f) := by
  unfold vibeInvalid; infer_instance

/-- How the upstream Pollinations text call turned out, as observed by the
handler (server.js 198–221): transport/HTTP failure (`!textRes.ok` or the
`fetch` itself throwing), missing `choices[0].message.content`, a JSON
body that fails to parse, or a parsed object whose `tracks` field is or
is not a non-empty array. -/
inductive UpstreamOutcome where
  | httpError (code : Nat)
  | noContent
  | parseFailure
  | parsed (tracksIsArray : Bool) (tracksLen : Nat)
  deriving DecidableEq, Repr

/-- Result of `POST /api/generate`.  A success carries the post-commit
`remaining` counts sent back to the client (server.js 245–248). -/
inductive GenResult where
  | globalLimit
  | userLimit
  | validationError
  | misconfigured
  | upstreamError
  | success (remainingUser remainingGlobal : Int)
  deriving DecidableEq, Repr

/-- The HTTP status code attached to each `POST /api/generate` outcome. -/
def genStatus : GenResult → Nat
  | .globalLimit => 429
  | .userLimit => 429
  | .validationError => 400
  | .misconfigured => 500
  | .upstreamError => 500
  | .success _ _ => 200

/-- `commit`: the two increments of server.js 236–238
(`store.globalCount++; rec.count++`) — `rec` is the record `userRecord`
installed for `ip`, so the in-place `rec.count++` updates the map entry. -/
def commitCounters (today : String) (ip : String) (urec : UserRec) (s : Store) : Store :=
  { s with
    globalCount := s.globalCount + 1,
    users := setEntry s.users ip { count := urec.count + 1, date := today } }

/-- The `POST /api/generate` handler (server.js 146–255).
Environment inputs: `today` (UTC date), `ip` (resolved client ip), the
request's `vibe` field, whether `POLLINATIONS_API_KEY` is set, the
upstream outcome, the freshly drawn token (`crypto.randomUUID()`), the
image URL built for the cover, and `now` (`Date.now()` at token issue).
Returns the response outcome together with the updated store and vault. -/
def generate (today ip : String) (vibe : VibeField) (apiKeyPresent : Bool)
    (upstream : UpstreamOutcome) (token imageUrl : String) (now : Nat)
    (s : Store) (v : Vault) : GenResult × Store × Vault :=
  let s1 := resetIfNewDay today s
  let p := userRecord today ip s1
  let urec := p.1
  let s2 := p.2
  if s2.globalCount ≥ DAILY_GLOBAL_LIMIT then (.globalLimit, s2, v)
  else if urec.count ≥ DAILY_USER_LIMIT then (.userLimit, s2, v)
  else if vibeInvalid vibe then (.validationError, s2, v)
  else if ¬ apiKeyPresent then (.misconfigured, s2, v)
  else
    match upstream with
    | .httpError _ => (.upstreamError, s2, v)
    | .noContent => (.upstreamError, s2, v)
    | .parseFailure => (.upstreamError, s2, v)
    | .parsed tracksIsArray tracksLen =>
      if ¬ tracksIsArray ∨ tracksLen = 0 then (.upstreamError, s2, v)
      else
        let v' := setEntry v token { url := imageUrl, expiresAt := now + 5 * 60 * 1000 }
        let s3 := commitCounters today ip urec s2
        (.success (max 0 ((DAILY_USER_LIMIT : Int) - (urec.count + 1)))
                  (max 0 ((DAILY_GLOBAL_LIMIT : Int) - (s3.globalCount))),
         s3, v')

/-- The JSON body of `GET /api/status` (server.js 135–141). -/
structure StatusResponse where
  globalRemaining : Int
  userRemaining : Int
  globalLimit : Nat
  userLimit : Nat
  deriving DecidableEq, Repr

/-- The `GET /api/status` handler (server.js 130–142). -/
def status (today ip : String) (s : Store) : StatusResponse × Store :=
  let s1 := resetIfNewDay today s
  let p := userRecord today ip s1
  ({ globalRemaining := max 0 ((DAILY_GLOBAL_LIMIT : Int) - p.2.globalCount),
     userRemaining := max 0 ((DAILY_USER_LIMIT : Int) - p.1.count),
     globalLimit := DAILY_GLOBAL_LIMIT,
     userLimit := DAILY_USER_LIMIT }, p.2)

/-- Result of `GET /api/cover/:token`: 404 when the token is unknown, 410
when expired, 502 when the downstream image fetch fails, 200 with the
proxied image otherwise. -/
inductive CoverResult where
  | notFound
  | expired
  | fetchFailed
  | ok (url : String)
  deriving DecidableEq, Repr

/-- The HTTP status code attached to each `GET /api/cover` outcome. -/
def coverStatus : CoverResult → Nat
  | .notFound => 404
  | .expired => 410
  | .fetchFailed => 502
  | .ok _ => 200

/-- The `GET /api/cover/:token` handler (server.js 259–286).  `now` is
`Date.now()`; `fetchOk` tells whether the downstream image fetch both
returned and had `imgRes.ok` (on either kind of failure the handler lands
in its `catch` block).  Note the delete on the success path happens only
after the image bytes were sent; the `catch` path performs no delete. -/
def cover (now : Nat) (token : String) (fetchOk : Bool) (v : Vault) :
    CoverResult × Vault :=
  match getEntry v token with
  | none => (.notFound, v)
  | some entry =>
    if now > entry.expiresAt then (.expired, delEntry v token)
    else if fetchOk then (.ok entry.url, delEntry v token)
    else (.fetchFailed, v)

/-- One run of the 60-second sweep (server.js 289–294): delete every entry
with `now > entry.expiresAt`. -/
def sweep (now : Nat) (v : Vault) : Vault :=
  v.filter (fun p => ¬ now > p.2.expiresAt)

/-- `true` exactly on the success outcome of `POST /api/generate`. -/
def isSuccess : GenResult → Bool
  | .success _ _ => true
  | _ => false

/-- The daily count the ledger currently records for a client (0 when the
client has no entry). -/
def clientCount (s : Store) (c : String) : Nat :=
  match getEntry s.users c with
  | some r => r.count
  | none => 0

/-! ### Association-list lemmas (the `Map` model) -/

theorem getEntry_setEntry_self {α : Type} (m : List (String × α)) (k : String)
    (v : α) : getEntry (setEntry m k v) k = some v := by
  induction m with
  | nil => simp [setEntry, getEntry]
  | cons a rest ih =>
    by_cases h : a.1 = k
    · simp [setEntry, h, getEntry]
    · simp [setEntry, h, getEntry, ih]

theorem getEntry_setEntry_ne {α : Type} (m : List (String × α)) (k c : String)
    (v : α) (h : c ≠ k) : getEntry (setEntry m k v) c = getEntry m c := by
  induction m with
  | nil => simp [setEntry, getEntry, Ne.symm h]
  | cons a rest ih =>
    by_cases ha : a.1 = k
    · simp [setEntry, ha, getEntry, Ne.symm h]
    · simp [setEntry, ha, getEntry, ih]

theorem getEntry_delEntry_self {α : Type} (m : List (String × α)) (k : String) :
    getEntry (delEntry m k) k = none := by
  induction m with
  | nil => simp [delEntry, getEntry]
  | cons a rest ih =>
    by_cases h : a.1 = k
    · simpa [delEntry, h] using ih
    · simpa [delEntry, h, getEntry] using ih

theorem getEntry_eq_none_of_forall_ne {α : Type} (m : List (String × α))
    (k : String) (h : ∀ p ∈ m, p.1 ≠ k) : getEntry m k = none := by
  induction m with
  | nil => rfl
  | cons a rest ih =>
    have ha : a.1 ≠ k := h a (List.mem_cons_self a rest)
    simpa [getEntry, ha] using ih fun p hp => h p (List.mem_cons_of_mem a hp)

/-! ### `userRecord` lemmas -/

theorem userRecord_getEntry_self (today ip : String) (s : Store) :
    getEntry (userRecord today ip s).2.users ip = some (userRecord today ip s).1 := by
  unfold userRecord
  rcases hm : getEntry s.users ip with _ | r
  · simpa using getEntry_setEntry_self s.users ip _
  · by_cases hd : r.date = today
    · simp [hd, hm]
    · simpa [hd] using getEntry_setEntry_self s.users ip _

theorem userRecord_getEntry_ne (today ip c : String) (s : Store) (h : c ≠ ip) :
    getEntry (userRecord today ip s).2.users c = getEntry s.users c := by
  unfold userRecord
  rcases hm : getEntry s.users ip with _ | r
  · simpa using getEntry_setEntry_ne s.users ip c _ h
  · by_cases hd : r.date = today
    · simp [hd]
    · simpa [hd] using getEntry_setEntry_ne s.users ip c _ h

theorem userRecord_globalCount (today ip : String) (s : Store) :
    (userRecord today ip s).2.globalCount = s.globalCount := by
  unfold userRecord
  rcases getEntry s.users ip with _ | r
  · rfl
  · by_cases hd : r.date = today <;> simp [hd]

theorem userRecord_resetDate (today ip : String) (s : Store) :
    (userRecord today ip s).2.resetDate = s.resetDate := by
  unfold userRecord
  rcases getEntry s.users ip with _ | r
  · rfl
  · by_cases hd : r.date = today <;> simp [hd]

/-! ### Claim theorems -/

/-- C5: if the stored reset date differs from the current UTC date, the
very next ledger access first observes a zeroed global counter, the
updated date and an empty per-client map: `resetIfNewDay` yields exactly
that state, and both handlers (`status`, `generate`) behave on the old
state exactly as on the zeroed state, regardless of the prior counters. -/
theorem C5_lazy_reset (today ip : String) (s : Store)
    (h : s.resetDate ≠ today) :
    resetIfNewDay today s = { globalCount := 0, resetDate := today, users := [] } ∧
    status today ip s = status today ip { globalCount := 0, resetDate := today, users := [] } ∧
    ∀ (vibe : VibeField) (key : Bool) (up : UpstreamOutcome) (tok url : String)
      (now : Nat) (v : Vault),
      generate today ip vibe key up tok url now s v =
        generate today ip vibe key up tok url now
          { globalCount := 0, resetDate := today, users := [] } v := by
  have hr : resetIfNewDay today s =
      { globalCount := 0, resetDate := today, users := [] } := by
    simp [resetIfNewDay, h]
  have hz : resetIfNewDay today { globalCount := 0, resetDate := today, users := [] } =
      { globalCount := 0, resetDate := today, users := [] } := by
    simp [resetIfNewDay]
  refine ⟨hr, ?_, ?_⟩
  · simp only [status, hr, hz]
  · intro vibe key up tok url now v
    simp only [generate, hr, hz]

/-- Witness for C5 at a concrete reset-day state. -/
theorem C5_lazy_reset_witness :
    resetIfNewDay "2026-01-02"
        { globalCount := 7, resetDate := "2026-01-01",
          users := [("a", { count := 2, date := "2026-01-01" })] } =
      { globalCount := 0, resetDate := "2026-01-02", users := [] } :=
  (C5_lazy_reset "2026-01-02" "a" _ (by decide)).1

/-- C4 counterexample: the claim says an entry whose expiry equals the
current instant is deleted by `sweep`; the code deletes only on the
strict inequality `now > expiresAt`, so at `now = expiresAt = 100` the
entry survives the sweep. -/
theorem C4_counterexample :
    sweep 100 [("t", { url := "u", expiresAt := 100 })] =
      [("t", { url := "u", expiresAt := 100 })] ∧
    getEntry (sweep 100 [("t", { url := "u", expiresAt := 100 })]) "t" =
      some { url := "u", expiresAt := 100 } :=
  ⟨rfl, rfl⟩

/-- C4 (amended): one run of `sweep` deletes exactly the entries with
`expiresAt < now` and keeps every entry with `expiresAt ≥ now` — in
particular an entry whose expiry equals the current instant is kept, not
deleted.  Stated for vaults with unique keys, as the JS `Map` guarantees. -/
theorem C4_sweep_strict (now : Nat) (v : Vault) (t : String)
    (hnd : (v.map Prod.fst).Nodup) :
    getEntry (sweep now v) t =
      match getEntry v t with
      | none => none
      | some e => if e.expiresAt < now then none else some e := by
  induction v with
  | nil => rfl
  | cons a rest ih =>
    rcases List.nodup_cons.mp hnd with ⟨hniq, hnd'⟩
    by_cases hk : a.1 = t
    · by_cases he : a.2.expiresAt < now
      · have hgone : getEntry (sweep now rest) t = none := by
          apply getEntry_eq_none_of_forall_ne
          intro p hp hpt
          exact hniq (hk ▸ hpt ▸ List.mem_map_of_mem Prod.fst
            (List.mem_of_mem_filter hp))
        simpa [sweep, List.filter_cons, Nat.not_le.mpr he, getEntry, hk, he]
          using hgone
      · simp [sweep, List.filter_cons, Nat.not_lt.mp he, getEntry, hk, he]
    · by_cases he : a.2.expiresAt < now
      · simpa [sweep, List.filter_cons, Nat.not_le.mpr he, getEntry, hk, he]
          using ih hnd'
      · simpa [sweep, List.filter_cons, Nat.not_lt.mp he, getEntry, hk, he]
          using ih hnd'

/-- Witness for C4 (amended) on a concrete two-entry vault. -/
theorem C4_sweep_strict_witness :
    getEntry (sweep 50 [("a", { url := "u", expiresAt := 5 }),
                        ("b", { url := "w", expiresAt := 100 })]) "a" = none ∧
    getEntry (sweep 50 [("a", { url := "u", expiresAt := 5 }),
                        ("b", { url := "w", expiresAt := 100 })]) "b" =
      some { url := "w", expiresAt := 100 } := by
  have ha := C4_sweep_strict 50
    [("a", { url := "u", expiresAt := 5 }), ("b", { url := "w", expiresAt := 100 })]
    "a" (by decide)
  have hb := C4_sweep_strict 50
    [("a", { url := "u", expiresAt := 5 }), ("b", { url := "w", expiresAt := 100 })]
    "b" (by decide)
  exact ⟨by simpa using ha, by simpa using hb⟩

/-- C3 counterexample: the claim says a token is expired, never redeemed,
at the exact instant `now = expiresAt`; the code tests the strict
`Date.now() > entry.expiresAt`, so at `now = expiresAt = 100` the token is
fulfilled (and consumed), not reported expired. -/
theorem C3_counterexample :
    cover 100 "t" true [("t", { url := "u", expiresAt := 100 })] =
      (.ok "u", []) :=
  rfl

/-- C3 (amended): `redeem` signals `notFound` when the token is absent; if
present and `now > expiresAt` it deletes the entry and signals `expired`;
if present and `now ≤ expiresAt` it is fulfilled — at the exact instant
`now = expiresAt` the token is still redeemed, and in both the expired and
the fulfilled case the entry is gone afterwards. -/
theorem C3_redeem_cases (now : Nat) (t : String) (fOk : Bool) (v : Vault) :
    (getEntry v t = none → cover now t fOk v = (.notFound, v)) ∧
    (∀ e, getEntry v t = some e → e.expiresAt < now →
      cover now t fOk v = (.expired, delEntry v t) ∧
      getEntry (cover now t fOk v).2 t = none) ∧
    (∀ e, getEntry v t = some e → now ≤ e.expiresAt →
      cover now t true v = (.ok e.url, delEntry v t) ∧
      getEntry (cover now t true v).2 t = none) := by
  refine ⟨fun hnone => ?_, fun e he hexp => ?_, fun e he hlive => ?_⟩
  · simp [cover, hnone]
  · constructor
    · simp [cover, he, hexp]
    · simp [cover, he, hexp, getEntry_delEntry_self]
  · constructor
    · simp [cover, he, Nat.not_lt.mpr hlive]
    · simp [cover, he, Nat.not_lt.mpr hlive, getEntry_delEntry_self]

/-- Witness for C3 (amended): an expired token (`now = 101 > 100`) is
deleted and reported expired. -/
theorem C3_redeem_cases_witness :
    cover 101 "t" false [("t", { url := "u", expiresAt := 100 })] =
      (.expired, []) := by
  have h := (C3_redeem_cases 101 "t" false
      [("t", { url := "u", expiresAt := 100 })]).2.1
    { url := "u", expiresAt := 100 } rfl (by decide)
  exact h.1

/-- C2 counterexample: the claim says a valid token is removed by
`GET /api/cover` whether or not the downstream fetch succeeds, so a second
redemption always signals `notFound`; in the code the delete sits after the
successful send and the `catch` path does not delete, so after a failed
fetch the token is still in the vault and a second call reports
`fetchFailed`, not `notFound`. -/
theorem C2_counterexample :
    cover 50 "t" false [("t", { url := "u", expiresAt := 100 })] =
      (.fetchFailed, [("t", { url := "u", expiresAt := 100 })]) ∧
    (cover 50 "t" false
        (cover 50 "t" false [("t", { url := "u", expiresAt := 100 })]).2).1 =
      .fetchFailed :=
  ⟨rfl, rfl⟩

/-- C2 (amended): for a token present and unexpired, `GET /api/cover`
removes it exactly when the downstream fetch succeeds: on success the
entry is deleted and a second redemption signals `notFound`; on a failed
fetch the vault is left unchanged, so the token can be redeemed again. -/
theorem C2_delete_only_on_success (now : Nat) (t : String) (v : Vault)
    (e : TokenEntry) (h1 : getEntry v t = some e) (h2 : now ≤ e.expiresAt) :
    (cover now t true v).2 = delEntry v t ∧
    getEntry (cover now t true v).2 t = none ∧
    (cover now t true (cover now t true v).2).1 = .notFound ∧
    cover now t false v = (.fetchFailed, v) := by
  have hnl := Nat.not_lt.mpr h2
  refine ⟨?_, ?_, ?_, ?_⟩
  · simp [cover, h1, hnl]
  · simp [cover, h1, hnl, getEntry_delEntry_self]
  · simp [cover, h1, hnl, getEntry_delEntry_self]
  · simp [cover, h1, hnl]

/-- Witness for C2 (amended) on a concrete one-token vault. -/
theorem C2_delete_only_on_success_witness :
    getEntry (cover 50 "t" true [("t", { url := "u", expiresAt := 100 })]).2 "t" =
      none ∧
    cover 50 "t" false [("t", { url := "u", expiresAt := 100 })] =
      (.fetchFailed, [("t", { url := "u", expiresAt := 100 })]) := by
  have h := C2_delete_only_on_success 50 "t"
    [("t", { url := "u", expiresAt := 100 })] { url := "u", expiresAt := 100 }
    rfl (by decide)
  exact ⟨h.2.1, h.2.2.2⟩

/-! ### Branch lemmas for the `POST /api/generate` handler -/

/-- The store as the generate/status handlers see it after the lazy reset
and the per-client materialization (`resetIfNewDay(); userRecord(ip)`),
paired with the client's record. -/
def prepState (today ip : String) (s : Store) : UserRec × Store :=
  userRecord today ip (resetIfNewDay today s)

/-- The upstream outcome on which the handler commits: HTTP success,
content present, JSON parsed, and a non-empty `tracks` array. -/
def upstreamOk : UpstreamOutcome → Prop
  | .parsed arr len => arr = true ∧ len ≠ 0
  | _ => False

instance : (u : UpstreamOutcome) → Decidable (upstreamOk u)
  | .httpError _ => .isFalse fun h => h
  | .noContent => .isFalse fun h => h
  | .parseFailure => .isFalse fun h => h
  | .parsed arr len => inferInstanceAs (Decidable (arr = true ∧ len ≠ 0))

theorem generate_denied_global (today ip : String) (vibe : VibeField)
    (key : Bool) (up : UpstreamOutcome) (tok url : String) (now : Nat)
    (s : Store) (v : Vault)
    (hg : (prepState today ip s).2.globalCount ≥ DAILY_GLOBAL_LIMIT) :
    generate today ip vibe key up tok url now s v =
      (.globalLimit, (prepState today ip s).2, v) := by
  simp [generate, prepState] at hg ⊢
  simp [hg]

theorem generate_denied_user (today ip : String) (vibe : VibeField)
    (key : Bool) (up : UpstreamOutcome) (tok url : String) (now : Nat)
    (s : Store) (v : Vault)
    (hg : ¬ (prepState today ip s).2.globalCount ≥ DAILY_GLOBAL_LIMIT)
    (hu : (prepState today ip s).1.count ≥ DAILY_USER_LIMIT) :
    generate today ip vibe key up tok url now s v =
      (.userLimit, (prepState today ip s).2, v) := by
  simp only [prepState] at hg hu
  simp [generate, prepState, hg, hu]

theorem generate_invalid (today ip : String) (vibe : VibeField)
    (key : Bool) (up : UpstreamOutcome) (tok url : String) (now : Nat)
    (s : Store) (v : Vault)
    (hg : ¬ (prepState today ip s).2.globalCount ≥ DAILY_GLOBAL_LIMIT)
    (hu : ¬ (prepState today ip s).1.count ≥ DAILY_USER_LIMIT)
    (hv : vibeInvalid vibe) :
    generate today ip vibe key up tok url now s v =
      (.validationError, (prepState today ip s).2, v) := by
  simp only [prepState] at hg hu
  simp [generate, prepState, hg, hu, hv]

theorem generate_nokey (today ip : String) (vibe : VibeField)
    (up : UpstreamOutcome) (tok url : String) (now : Nat)
    (s : Store) (v : Vault)
    (hg : ¬ (prepState today ip s).2.globalCount ≥ DAILY_GLOBAL_LIMIT)
    (hu : ¬ (prepState today ip s).1.count ≥ DAILY_USER_LIMIT)
    (hv : ¬ vibeInvalid vibe) :
    generate today ip vibe false up tok url now s v =
      (.misconfigured, (prepState today ip s).2, v) := by
  simp only [prepState] at hg hu
  simp [generate, prepState, hg, hu, hv]

theorem generate_upstream_err (today ip : String) (vibe : VibeField)
    (up : UpstreamOutcome) (tok url : String) (now : Nat)
    (s : Store) (v : Vault)
    (hg : ¬ (prepState today ip s).2.globalCount ≥ DAILY_GLOBAL_LIMIT)
    (hu : ¬ (prepState today ip s).1.count ≥ DAILY_USER_LIMIT)
    (hv : ¬ vibeInvalid vibe) (hup : ¬ upstreamOk up) :
    generate today ip vibe true up tok url now s v =
      (.upstreamError, (prepState today ip s).2, v) := by
  simp only [prepState] at hg hu
  rcases up with c | _ | _ | ⟨arr, len⟩
  · simp [generate, prepState, hg, hu, hv]
  · simp [generate, prepState, hg, hu, hv]
  · simp [generate, prepState, hg, hu, hv]
  · have hcond : ¬ arr = true ∨ len = 0 := by
      by_cases ha : arr = true
      · right
        by_contra hl
        exact hup ⟨ha, hl⟩
      · left
        exact ha
    have hcond' : arr = true → len = 0 := by
      intro ha
      rcases hcond with h | h
      · exact absurd ha h
      · exact h
    simp [generate, prepState, hg, hu, hv]
    exact hcond'

theorem generate_success_eq (today ip : String) (vibe : VibeField)
    (up : UpstreamOutcome) (tok url : String) (now : Nat)
    (s : Store) (v : Vault)
    (hg : ¬ (prepState today ip s).2.globalCount ≥ DAILY_GLOBAL_LIMIT)
    (hu : ¬ (prepState today ip s).1.count ≥ DAILY_USER_LIMIT)
    (hv : ¬ vibeInvalid vibe) (hup : upstreamOk up) :
    generate today ip vibe true up tok url now s v =
      (.success
          (max 0 ((DAILY_USER_LIMIT : Int) - ((prepState today ip s).1.count + 1)))
          (max 0 ((DAILY_GLOBAL_LIMIT : Int) - ((prepState today ip s).2.globalCount + 1))),
        commitCounters today ip (prepState today ip s).1 (prepState today ip s).2,
        setEntry v tok { url := url, expiresAt := now + 5 * 60 * 1000 }) := by
  simp only [prepState] at hg hu
  rcases up with c | _ | _ | ⟨arr, len⟩
  · exact absurd hup (by simp [upstreamOk])
  · exact absurd hup (by simp [upstreamOk])
  · exact absurd hup (by simp [upstreamOk])
  · obtain ⟨ha, hl⟩ : arr = true ∧ len ≠ 0 := hup
    subst ha
    simp [generate, prepState, hg, hu, hv, hl, commitCounters]

theorem generate_result_not_denied (today ip : String) (vibe : VibeField)
    (key : Bool) (up : UpstreamOutcome) (tok url : String) (now : Nat)
    (s : Store) (v : Vault)
    (hg : ¬ (prepState today ip s).2.globalCount ≥ DAILY_GLOBAL_LIMIT)
    (hu : ¬ (prepState today ip s).1.count ≥ DAILY_USER_LIMIT) :
    (generate today ip vibe key up tok url now s v).1 ≠ .globalLimit ∧
    (generate today ip vibe key up tok url now s v).1 ≠ .userLimit := by
  by_cases hv : vibeInvalid vibe
  · simp [generate_invalid today ip vibe key up tok url now s v hg hu hv]
  · cases key
    · simp [generate_nokey today ip vibe up tok url now s v hg hu hv]
    · by_cases hup : upstreamOk up
      · simp [generate_success_eq today ip vibe up tok url now s v hg hu hv hup]
      · simp [generate_upstream_err today ip vibe up tok url now s v hg hu hv hup]

/-- C6: the `POST /api/generate` reservation check tests the global limit
first and the per-client limit second, mutates no counter, and carries
status 429 on both denials: the result is `globalLimit` iff the
(post-reset) global count is at least 11 — regardless of the client's own
count — else `userLimit` iff the client's count is at least 2, and on
either denial the store is exactly the post-reset/materialization state
and the vault untouched. -/
theorem C6_reservation (today ip : String) (vibe : VibeField) (key : Bool)
    (up : UpstreamOutcome) (tok url : String) (now : Nat) (s : Store)
    (v : Vault) :
    DAILY_GLOBAL_LIMIT = 11 ∧ DAILY_USER_LIMIT = 2 ∧
    genStatus .globalLimit = 429 ∧ genStatus .userLimit = 429 ∧
    ((generate today ip vibe key up tok url now s v).1 = .globalLimit ↔
      (prepState today ip s).2.globalCount ≥ DAILY_GLOBAL_LIMIT) ∧
    ((generate today ip vibe key up tok url now s v).1 = .userLimit ↔
      ((prepState today ip s).2.globalCount < DAILY_GLOBAL_LIMIT ∧
        (prepState today ip s).1.count ≥ DAILY_USER_LIMIT)) ∧
    ((prepState today ip s).2.globalCount ≥ DAILY_GLOBAL_LIMIT ∨
        (prepState today ip s).1.count ≥ DAILY_USER_LIMIT →
      (generate today ip vibe key up tok url now s v).2 =
        ((prepState today ip s).2, v)) := by
  by_cases hg : (prepState today ip s).2.globalCount ≥ DAILY_GLOBAL_LIMIT
  · have he := generate_denied_global today ip vibe key up tok url now s v hg
    refine ⟨rfl, rfl, rfl, rfl, ?_, ?_, ?_⟩
    · simp [he, hg]
    · simp [he, Nat.not_lt.mpr hg]
    · intro _
      simp [he]
  · by_cases hu : (prepState today ip s).1.count ≥ DAILY_USER_LIMIT
    · have he := generate_denied_user today ip vibe key up tok url now s v hg hu
      refine ⟨rfl, rfl, rfl, rfl, ?_, ?_, ?_⟩
      · simp [he, hg]
      · simp [he, Nat.lt_of_not_le hg, hu]
      · intro _
        simp [he]
    · have hne := generate_result_not_denied today ip vibe key up tok url now
        s v hg hu
      refine ⟨rfl, rfl, rfl, rfl, ?_, ?_, ?_⟩
      · simp [hne.1, hg]
      · simp [hne.2, hu]
      · intro hd
        rcases hd with h | h
        · exact absurd h hg
        · exact absurd h hu

/-- Witness for C6: with the global counter already at 11 and a fresh
client (own count 0), the request is denied with `globalLimit`. -/
theorem C6_reservation_witness :
    (generate "d" "a" (.str "x") true (.parsed true 8) "t" "u" 0
        { globalCount := 11, resetDate := "d", users := [] } []).1 =
      .globalLimit := by
  have h := (C6_reservation "d" "a" (.str "x") true (.parsed true 8) "t" "u" 0
    { globalCount := 11, resetDate := "d", users := [] } []).2.2.2.2.1
  exact h.mpr (by decide)

/-- C7: once the quota checks pass, `POST /api/generate` rejects with a
validation error (status 400) exactly when the `vibe` field is not a
string, is empty after trimming, or its trimmed form exceeds 600
characters; on rejection the response is produced for every upstream
outcome alike (no upstream call) and the counters are left at the
post-reset state (no quota consumed). -/
theorem C7_validation (today ip : String) (vibe : VibeField) (key : Bool)
    (up : UpstreamOutcome) (tok url : String) (now : Nat) (s : Store)
    (v : Vault)
    (hg : (prepState today ip s).2.globalCount < DAILY_GLOBAL_LIMIT)
    (hu : (prepState today ip s).1.count < DAILY_USER_LIMIT) :
    ((generate today ip vibe key up tok url now s v).1 = .validationError ↔
      vibeInvalid vibe) ∧
    (vibeInvalid vibe →
      generate today ip vibe key up tok url now s v =
        (.validationError, (prepState today ip s).2, v)) ∧
    genStatus .validationError = 400 ∧
    (vibeInvalid vibe ↔
      vibe = .nonString ∨
      ∃ raw, vibe = .str raw ∧ (jsTrim raw = "" ∨ (jsTrim raw).length > 600)) := by
  have hg' : ¬ (prepState today ip s).2.globalCount ≥ DAILY_GLOBAL_LIMIT :=
    Nat.not_le.mpr hg
  have hu' : ¬ (prepState today ip s).1.count ≥ DAILY_USER_LIMIT :=
    Nat.not_le.mpr hu
  refine ⟨⟨?_, ?_⟩, ?_, rfl, ?_⟩
  · intro h
    by_contra hv
    cases key
    · simp [generate_nokey today ip vibe up tok url now s v hg' hu' hv] at h
    · by_cases hup : upstreamOk up
      · simp [generate_success_eq today ip vibe up tok url now s v hg' hu' hv
          hup] at h
      · simp [generate_upstream_err today ip vibe up tok url now s v hg' hu' hv
          hup] at h
  · intro hv
    simp [generate_invalid today ip vibe key up tok url now s v hg' hu' hv]
  · intro hv
    exact generate_invalid today ip vibe key up tok url now s v hg' hu' hv
  · cases vibe with
    | str raw => simp [vibeInvalid, vibeOf]
    | nonString => simp [vibeInvalid, vibeOf]

/-- Witness for C7: an input of 601 characters is rejected with the
validation error from a fresh (quota-clean) state. -/
theorem C7_validation_witness :
    (vibeOf (.str (String.mk (List.replicate 601 'a')))).length = 601 ∧
    generate "d" "a" (.str (String.mk (List.replicate 601 'a'))) true
        (.parsed true 8) "t" "u" 0
        { globalCount := 0, resetDate := "d", users := [] } [] =
      (.validationError,
        { globalCount := 0, resetDate := "d",
          users := [("a", { count := 0, date := "d" })] }, []) := by
  have h := (C7_validation "d" "a" (.str (String.mk (List.replicate 601 'a')))
    true (.parsed true 8) "t" "u" 0
    { globalCount := 0, resetDate := "d", users := [] } []
    (by decide) (by decide)).2.1 (by decide)
  refine ⟨by decide, ?_⟩
  rw [h]
  rfl

/-- C1: relative to the post-reset (and post-materialization) ledger
state, one `POST /api/generate` request increments the global counter and
the requesting client's counter by exactly one when it fully succeeds
(upstream OK, content present, JSON parsed, non-empty `tracks`), and
leaves the global counter and every client's counter unchanged on every
error path — quota denial, validation failure, missing credential,
upstream failure, parse failure, empty tracklist. -/
theorem C1_commit_iff_success (today ip : String) (vibe : VibeField)
    (key : Bool) (up : UpstreamOutcome) (tok url : String) (now : Nat)
    (s : Store) (v : Vault) :
    (generate today ip vibe key up tok url now s v).2.1.globalCount =
      (prepState today ip s).2.globalCount +
        (if isSuccess (generate today ip vibe key up tok url now s v).1
          then 1 else 0) ∧
    (∀ c, clientCount (generate today ip vibe key up tok url now s v).2.1 c =
      clientCount (prepState today ip s).2 c +
        (if isSuccess (generate today ip vibe key up tok url now s v).1 = true
            ∧ c = ip
          then 1 else 0)) ∧
    (isSuccess (generate today ip vibe key up tok url now s v).1 = true ↔
      ((prepState today ip s).2.globalCount < DAILY_GLOBAL_LIMIT ∧
        (prepState today ip s).1.count < DAILY_USER_LIMIT ∧
        ¬ vibeInvalid vibe ∧ key = true ∧ upstreamOk up)) := by
  by_cases hg : (prepState today ip s).2.globalCount ≥ DAILY_GLOBAL_LIMIT
  · have he := generate_denied_global today ip vibe key up tok url now s v hg
    simp [he, isSuccess, Nat.not_lt.mpr hg]
  · by_cases hu : (prepState today ip s).1.count ≥ DAILY_USER_LIMIT
    · have he := generate_denied_user today ip vibe key up tok url now s v hg hu
      simp [he, isSuccess, Nat.not_lt.mpr hu]
    · by_cases hv : vibeInvalid vibe
      · have he := generate_invalid today ip vibe key up tok url now s v hg hu hv
        simp [he, isSuccess, hv]
      · cases key
        · have he := generate_nokey today ip vibe up tok url now s v hg hu hv
          simp [he, isSuccess]
        · by_cases hup : upstreamOk up
          · have he := generate_success_eq today ip vibe up tok url now s v
              hg hu hv hup
            have hself : getEntry (prepState today ip s).2.users ip =
                some (prepState today ip s).1 :=
              userRecord_getEntry_self today ip (resetIfNewDay today s)
            refine ⟨by simp [he, isSuccess, commitCounters], fun c => ?_,
              by simp [he, isSuccess, Nat.lt_of_not_le hg, Nat.lt_of_not_le hu,
                hv, hup]⟩
            by_cases hc : c = ip
            · subst hc
              simp [he, isSuccess, commitCounters, clientCount,
                getEntry_setEntry_self, hself]
            · simp [he, isSuccess, commitCounters, clientCount,
                getEntry_setEntry_ne _ _ _ _ hc, hc]
          · have he := generate_upstream_err today ip vibe up tok url now s v
              hg hu hv hup
            simp [he, isSuccess, hup]

/-- C10: the `remaining` values reported by `GET /api/status` and by a
successful `POST /api/generate` are clamped at zero (`Math.max(0, …)`),
so they are never negative, whatever the stored counters are. -/
theorem C10_remaining_nonneg :
    (∀ today ip s, (0:Int) ≤ (status today ip s).1.globalRemaining ∧
      (0:Int) ≤ (status today ip s).1.userRemaining) ∧
    (∀ today ip vibe key up tok url now s v rU rG,
      (generate today ip vibe key up tok url now s v).1 = .success rU rG →
      (0:Int) ≤ rU ∧ (0:Int) ≤ rG) := by
  constructor
  · intro today ip s
    constructor
    · simp [status]
    · simp [status]
  · intro today ip vibe key up tok url now s v rU rG h
    by_cases hg : (prepState today ip s).2.globalCount ≥ DAILY_GLOBAL_LIMIT
    · rw [generate_denied_global today ip vibe key up tok url now s v hg] at h
      exact absurd h (by simp)
    · by_cases hu : (prepState today ip s).1.count ≥ DAILY_USER_LIMIT
      · rw [generate_denied_user today ip vibe key up tok url now s v hg hu] at h
        exact absurd h (by simp)
      · by_cases hv : vibeInvalid vibe
        · rw [generate_invalid today ip vibe key up tok url now s v hg hu hv] at h
          exact absurd h (by simp)
        · cases key
          · rw [generate_nokey today ip vibe up tok url now s v hg hu hv] at h
            exact absurd h (by simp)
          · by_cases hup : upstreamOk up
            · rw [generate_success_eq today ip vibe up tok url now s v
                hg hu hv hup] at h
              simp only [Prod.fst, GenResult.success.injEq] at h
              rw [← h.1, ← h.2]
              exact ⟨le_max_left 0 _, le_max_left 0 _⟩
            · rw [generate_upstream_err today ip vibe up tok url now s v
                hg hu hv hup] at h
              exact absurd h (by simp)

/-- Witness for C10: a concrete successful generation reports the clamped
remaining counts 1 and 10, both nonnegative. -/
theorem C10_remaining_nonneg_witness :
    (generate "d" "a" (.str "x") true (.parsed true 8) "t" "u" 0
        { globalCount := 0, resetDate := "d", users := [] } []).1 =
      .success 1 10 ∧
    (0:Int) ≤ 1 ∧ (0:Int) ≤ 10 := by
  have hs : (generate "d" "a" (.str "x") true (.parsed true 8) "t" "u" 0
      { globalCount := 0, resetDate := "d", users := [] } []).1 =
      .success 1 10 := by decide
  exact ⟨hs, C10_remaining_nonneg.2 "d" "a" (.str "x") true (.parsed true 8)
    "t" "u" 0 { globalCount := 0, resetDate := "d", users := [] } [] 1 10 hs⟩

/-- C8 counterexample: the claim says a `GET /api/status` request leaves
the set and contents of per-client entries exactly as before; in the code
`userRecord(ip)` materializes a fresh entry for the requesting client, so
on a state with a current reset date and an empty user map the map is
non-empty afterwards. -/
theorem C8_counterexample :
    (status "d" "a"
        { globalCount := 5, resetDate := "d", users := [] }).2.users ≠ [] := by
  decide

/-- C8 (amended): beyond the lazy day-reset, the only side effect of
`GET /api/status` is the lazy materialization of the requesting client's
record: with a current reset date, the global counter and the stored date
are unchanged, every other client's entry is unchanged, and the
requester's entry is kept when fresh and otherwise set to
`{ count := 0, date := today }`. -/
theorem C8_status_frame (today ip : String) (s : Store)
    (h : s.resetDate = today) :
    (status today ip s).2.globalCount = s.globalCount ∧
    (status today ip s).2.resetDate = s.resetDate ∧
    (∀ c, c ≠ ip →
      getEntry (status today ip s).2.users c = getEntry s.users c) ∧
    getEntry (status today ip s).2.users ip =
      some (match getEntry s.users ip with
        | some r => if r.date = today then r else { count := 0, date := today }
        | none => { count := 0, date := today }) := by
  have hr : resetIfNewDay today s = s := by simp [resetIfNewDay, h]
  refine ⟨?_, ?_, ?_, ?_⟩
  · simp [status, hr, userRecord_globalCount]
  · simp [status, hr, userRecord_resetDate]
  · intro c hc
    simp [status, hr, userRecord_getEntry_ne today ip c s hc]
  · have hself := userRecord_getEntry_self today ip s
    simp only [status, hr]
    rw [hself]
    unfold userRecord
    rcases hm : getEntry s.users ip with _ | r
    · simp [hm]
    · by_cases hd : r.date = today
      · simp [hm, hd]
      · simp [hm, hd]

/-- Witness for C8 (amended): on a current-date state, `GET /api/status`
preserves the global counter and another client's entry. -/
theorem C8_status_frame_witness :
    (status "d" "a"
        { globalCount := 3, resetDate := "d",
          users := [("b", { count := 1, date := "d" })] }).2.globalCount = 3 ∧
    getEntry (status "d" "a"
        { globalCount := 3, resetDate := "d",
          users := [("b", { count := 1, date := "d" })] }).2.users "b" =
      some { count := 1, date := "d" } := by
  have h := C8_status_frame "d" "a"
    { globalCount := 3, resetDate := "d",
      users := [("b", { count := 1, date := "d" })] } rfl
  exact ⟨h.1, (h.2.2.1 "b" (by decide)).trans rfl⟩

end Cinesonics
